import Mathlib

/-!
Verification of the Ilocano constitution assistant's query pipeline
(`rag_system.py`, `app.py`).

The pipeline is a fixed three-stage sequence (translate, retrieve, generate)
over a mutable per-request state.  External services (the chat LLM, the
embedding provider together with the FAISS vector index) are modelled as
oracles that either return a value or raise, i.e. functions into
`Except String _` where the `error` case carries the exception message.
Provider invocations are recorded in an explicit event trace so that
"no provider call is attempted" and "exactly one invocation" are provable
statements.
-/

/-- A retrieved chunk, mirroring a langchain `Document`: opaque text span
plus metadata (source filename, file type). -/
structure Document where
  page_content : String
  metadata : List (String × String)
deriving DecidableEq

/-- The per-request mutable state threaded through the graph
(`GraphState` in `rag_system.py`). -/
structure GraphState where
  query : String
  translated_query : String
  context : String
  answer : String
  source_docs : List Document
deriving DecidableEq

/-- Fixed decoding configuration of the `ChatOpenAI` client built in
`RAGSystem.__init__` (model `gpt-4.1`, `temperature=0`, `max_tokens=1000`,
`top_p=0.9`). -/
structure LLMConfig where
  model_name : String
  temperature : Nat
  max_tokens : Nat
  top_p : Rat
deriving DecidableEq

/-- The configuration `RAGSystem.__init__` passes to `ChatOpenAI`. -/
def chatConfig : LLMConfig :=
  { model_name := "gpt-4.1", temperature := 0, max_tokens := 1000, top_p := 9/10 }

/-- An attempted call to an external provider, recorded in the trace:
either an invocation of the chat LLM (with its fixed configuration and the
full prompt it receives) or an invocation of the retriever (embedding the
query and searching the vector index). -/
inductive ProviderCall where
  | llm (config : LLMConfig) (prompt : String)
  | retrieverInvoke (q : String)
deriving DecidableEq

/-- Model of the external FAISS vector store: `search` is the embedding of a
query followed by the index's nearest-neighbour ranking, returning all chunks
in similarity-descending (native) order, or raising. -/
structure VectorStore where
  search : String → Except String (List Document)

/-- Model of `vectorstore.as_retriever(search_type="similarity",
search_kwargs=...)` with `k` neighbours: the `k` most similar chunks in the
index's native order. -/
def VectorStore.as_retriever (vs : VectorStore) (k : Nat) :
    String → Except String (List Document) :=
  fun q => (vs.search q).map (fun docs => docs.take k)

/-- The `RAGSystem` object after construction: the chat LLM oracle
(prompt to response text, or exception) and the optionally loaded vector
store.  `load_vectorstore` leaves `vectorstore` as `none` when the
`vectorstore` directory is missing or loading raised. -/
structure RAGSystem where
  llm : String → Except String String
  vectorstore : Option VectorStore

/-- The retriever set up by `load_vectorstore` (lines 49-52): present exactly
when the vector store was loaded, with `k = 5`. -/
def RAGSystem.retriever (sys : RAGSystem) :
    Option (String → Except String (List Document)) :=
  sys.vectorstore.map (fun vs => vs.as_retriever 5)

/-- The list of Ilocano marker tokens from `translate_node`. -/
def ilocano_indicators : List String :=
  ["ti", "iti", "dagiti", "kadagiti", "ken", "wenno", "ania", "sadino",
   "kasano", "apay", "kayat", "mabalin", "saan", "adda", "awan",
   "agsaludsod", "maipapan", "konstitusion"]

/-- `needle` occurs somewhere inside `hay`, as Python's `needle in hay`. -/
def strContainsSub (hay needle : String) : Bool :=
  decide (needle.data <:+: hay.data)

/-- Python's `str.lower()`, modelled as the character-wise lowercase map
(`Char.toLower` agrees with Python on the ASCII letters, and every marker
token is ASCII). -/
def py_lower (s : String) : String :=
  String.mk (s.data.map Char.toLower)

/-- The language detector of `translate_node` (line 121):
`any(indicator in query.lower() for indicator in ilocano_indicators)`. -/
def is_ilocano (query : String) : Bool :=
  ilocano_indicators.any (fun indicator => strContainsSub (py_lower query) indicator)

/-- The `translation_prompt` template of `setup_prompt_templates`,
instantiated at `query` and `language` (what `translation_prompt | llm`
feeds the chat model). -/
def translation_prompt (query language : String) : String :=
  "\n            You are an expert translator specializing in Philippine constitutional law and Ilocano language.\n            \n            Translate the following query into English if it\x27s in Ilocano, or identify if it\x27s already in English:\n            Query: "
  ++ query
  ++ "\n            Target Language: "
  ++ language
  ++ "\n            \n            If the query is in Ilocano, provide an accurate English translation.\n            If the query is already in English, return it as-is.\n            \n            Translation:\n            "

/-- The fixed head of the `rag_prompt` template, up to the `context` slot. -/
def rag_prompt_head : String :=
  "\n            You are an expert on Philippine Constitutional Law with deep knowledge of Ilocano culture and language.\n            Your role is to help Filipino citizens understand their constitutional rights in Ilocano dialect.\n            \n            Use the following constitutional documents as context to answer the question:\n            "

/-- The fixed middle of the `rag_prompt` template, between the `context`
slot and the `question` slot. -/
def rag_prompt_mid : String :=
  "\n            \n            Question: "

/-- The fixed tail of the `rag_prompt` template, after the `question` slot. -/
def rag_prompt_tail : String :=
  "\n            \n            Instructions:\n            1. Answer primarily in Ilocano (Ilokano) dialect\n            2. Use simple, accessible language that ordinary citizens can understand\n            3. Include relevant constitutional articles or sections\n            4. Explain legal concepts using familiar Ilocano cultural references when appropriate\n            5. If translating legal terms, provide both Ilocano and English versions\n            6. Be accurate and cite specific constitutional provisions when possible\n            7. Keep your response concise and avoid repetition\n            8. Provide a single, clear explanation without repeating the same information multiple times\n            9. ALWAYS provide an English translation after your Ilocano response\n            \n            Format your response exactly like this:\n            \n            **Ilocano:**\n            [Your response in Ilocano here]\n            \n            **English Translation:**\n            [Complete English translation of your Ilocano response here]\n            \n            Provide ONE clear, concise answer:\n            "

/-- The `rag_prompt` template of `setup_prompt_templates`, instantiated at
`context` and `question` (what `rag_prompt | llm` feeds the chat model). -/
def rag_prompt (context question : String) : String :=
  rag_prompt_head ++ context ++ rag_prompt_mid ++ question ++ rag_prompt_tail

/-- `RAGSystem.translate_node`: detect Ilocano by marker substrings; when
detected, invoke the translation chain and store the stripped response,
falling back to the untranslated query on a provider exception; otherwise
copy the query through.  The second component records the provider calls
attempted. -/
def translate_node (sys : RAGSystem) (state : GraphState) :
    GraphState × List ProviderCall :=
  let query := state.query
  if is_ilocano query then
    match sys.llm (translation_prompt query "English") with
    | .ok translated =>
        ({ state with translated_query := translated.trim },
         [ProviderCall.llm chatConfig (translation_prompt query "English")])
    | .error _ =>
        ({ state with translated_query := query },
         [ProviderCall.llm chatConfig (translation_prompt query "English")])
  else
    ({ state with translated_query := query }, [])

/-- `RAGSystem.retrieve_node`: when a retriever exists, invoke it on
`translated_query`; on success join the chunk texts with a blank line into
`context` and store the chunks in `source_docs`; on a retrieval exception
store the fixed error placeholder and an empty `source_docs`; without a
retriever store the fixed unavailable message. -/
def retrieve_node (sys : RAGSystem) (state : GraphState) :
    GraphState × List ProviderCall :=
  match sys.retriever with
  | some r =>
      match r state.translated_query with
      | .ok docs =>
          ({ state with
              context := String.intercalate "\n\n" (docs.map Document.page_content),
              source_docs := docs },
           [ProviderCall.retrieverInvoke state.translated_query])
      | .error _ =>
          ({ state with
              context := "Error retrieving documents.",
              source_docs := [] },
           [ProviderCall.retrieverInvoke state.translated_query])
  | none =>
      ({ state with
          context := "No documents available. Please run process_documents.py first.",
          source_docs := [] }, [])

/-- `RAGSystem.generate_node`: invoke the generation chain on the rag prompt
built from `context` and the original `query`; store the response verbatim
in `answer`, or an error string embedding the exception message. -/
def generate_node (sys : RAGSystem) (state : GraphState) :
    GraphState × List ProviderCall :=
  match sys.llm (rag_prompt state.context state.query) with
  | .ok response =>
      ({ state with answer := response },
       [ProviderCall.llm chatConfig (rag_prompt state.context state.query)])
  | .error e =>
      ({ state with answer := "Error generating response: " ++ e },
       [ProviderCall.llm chatConfig (rag_prompt state.context state.query)])

/-- Node identifiers of the LangGraph workflow built in `setup_graph`,
including the distinguished start and end vertices. -/
inductive NodeId where
  | START
  | translate
  | retrieve
  | generate
  | END_
deriving DecidableEq, BEq

/-- The edges added in `setup_graph` (lines 186-191). -/
def workflowEdges : List (NodeId × NodeId) :=
  [(NodeId.START, NodeId.translate),
   (NodeId.translate, NodeId.retrieve),
   (NodeId.retrieve, NodeId.generate),
   (NodeId.generate, NodeId.END_)]

/-- Successor of a node along the workflow edges. -/
def nextNode (n : NodeId) : Option NodeId :=
  workflowEdges.lookup n

/-- Run the body of one node on the state.  `START` and `END_` carry no
computation. -/
def runNode (sys : RAGSystem) : NodeId → GraphState → GraphState × List ProviderCall
  | NodeId.translate, s => translate_node sys s
  | NodeId.retrieve, s => retrieve_node sys s
  | NodeId.generate, s => generate_node sys s
  | _, s => (s, [])

/-- Execute the compiled workflow from node `n`, following the edge list,
with fuel bounding the walk (the graph is a finite path, so any fuel of at
least 5 is enough).  Returns the final state, the concatenated provider-call
trace, and the sequence of stage nodes executed. -/
def execFrom (sys : RAGSystem) : Nat → NodeId → GraphState →
    GraphState × List ProviderCall × List NodeId
  | 0, _, s => (s, [], [])
  | fuel + 1, n, s =>
    if n = NodeId.END_ then (s, [], [])
    else
      let step := runNode sys n s
      let visitedHere : List NodeId := if n = NodeId.START then [] else [n]
      match nextNode n with
      | none => (step.1, step.2, visitedHere)
      | some m =>
          let rest := execFrom sys fuel m step.1
          (rest.1, step.2 ++ rest.2.1, visitedHere ++ rest.2.2)

/-- `self.app.invoke(state)`: execute the compiled three-node workflow from
`START`. -/
def app_invoke (sys : RAGSystem) (s : GraphState) :
    GraphState × List ProviderCall × List NodeId :=
  execFrom sys 5 NodeId.START s

/-- The initial request state built inside `RAGSystem.query`. -/
def initial_state (question : String) : GraphState :=
  { query := question, translated_query := "", context := "", answer := "",
    source_docs := [] }

/-- The fixed instruction string returned when no vector store is loaded. -/
def noVectorstoreMsg : String :=
  "Vector store not loaded. Please run `python process_documents.py` first."

/-- The body of the `try` block of `RAGSystem.query`, before the catch-all
`except` clause: the early return when no retriever exists, then the graph
invocation.  `fault` models an exception raised by the graph engine during
`self.app.invoke` (our node models are total, so this is the only place an
exception can still arise inside the `try` block); `error e` is such an
uncaught exception reaching the `except` clause. -/
def queryTryBody (sys : RAGSystem) (fault : Option String) (question : String) :
    Except String String :=
  match sys.retriever with
  | none => Except.ok noVectorstoreMsg
  | some _ =>
      match fault with
      | some e => Except.error e
      | none => Except.ok (app_invoke sys (initial_state question)).1.answer

/-- `RAGSystem.query`: run the try-block body and normalize any uncaught
exception to the `"Error processing query: ..."` string. -/
def RAGSystem.query (sys : RAGSystem) (fault : Option String)
    (question : String) : String :=
  match queryTryBody sys fault question with
  | Except.ok s => s
  | Except.error e => "Error processing query: " ++ e

/-- `RAGSystem.query` together with the provider-call trace and executed
stages: without a retriever nothing runs; otherwise the compiled graph runs
the three stages. -/
def queryFull (sys : RAGSystem) (fault : Option String) (question : String) :
    String × List ProviderCall × List NodeId :=
  match sys.retriever with
  | none => (noVectorstoreMsg, [], [])
  | some _ =>
      let r := app_invoke sys (initial_state question)
      match fault with
      | some e => ("Error processing query: " ++ e, r.2.1, r.2.2)
      | none => (r.1.answer, r.2.1, r.2.2)

/-- A chat transcript entry (`{"role": ..., "content": ...}` in `app.py`). -/
structure ChatMessage where
  role : String
  content : String
deriving DecidableEq

/-- One user turn of `display_chat_interface` (app.py lines 142-158): append
the user message, call `rag_system.query(prompt)`, display the returned
string and append it as the assistant message.  `query` never raises, so the
surrounding `except` branch is dead. -/
def handle_user_turn (sys : RAGSystem) (fault : Option String)
    (messages : List ChatMessage) (prompt : String) : List ChatMessage :=
  let messages := messages ++ [{ role := "user", content := prompt }]
  let response := RAGSystem.query sys fault prompt
  messages ++ [{ role := "assistant", content := response }]

/-! ## Stub environments used as concrete instances -/

/-- A chunk with fixed text, used as a concrete index entry. -/
def docA : Document :=
  { page_content := "Article III. Bill of Rights.", metadata := [("source", "constitution.pdf")] }

/-- Seven distinct chunks, to exercise the top-5 truncation. -/
def docList7 : List Document :=
  [{ page_content := "c1", metadata := [] }, { page_content := "c2", metadata := [] },
   { page_content := "c3", metadata := [] }, { page_content := "c4", metadata := [] },
   { page_content := "c5", metadata := [] }, { page_content := "c6", metadata := [] },
   { page_content := "c7", metadata := [] }]

/-- A system whose LLM echoes its prompt and whose index holds one chunk. -/
def sysEcho : RAGSystem :=
  { llm := fun prompt => Except.ok prompt,
    vectorstore := some { search := fun _ => Except.ok [docA] } }

/-- A system whose LLM and index both raise. -/
def sysFail : RAGSystem :=
  { llm := fun _ => Except.error "boom",
    vectorstore := some { search := fun _ => Except.error "boom" } }

/-- A system with no vector store loaded. -/
def sysNoStore : RAGSystem :=
  { llm := fun prompt => Except.ok prompt, vectorstore := none }

/-- A system whose index ranking returns seven chunks. -/
def sysMany : RAGSystem :=
  { llm := fun prompt => Except.ok prompt,
    vectorstore := some { search := fun _ => Except.ok docList7 } }

/-- The stub vector store of the round-trip scenario: retrieval returns
exactly one chunk with known text `T`. -/
def stubStore (T : String) : VectorStore :=
  { search := fun _ => Except.ok [{ page_content := T, metadata := [("source", "stub.txt")] }] }

/-- The round-trip scenario system: echoing LLM over the one-chunk store. -/
def stubSys (T : String) : RAGSystem :=
  { llm := fun prompt => Except.ok prompt, vectorstore := some (stubStore T) }

/-! ## Helper lemmas -/

/-- Unfolding the compiled workflow: from `START` it runs translate, then
retrieve, then generate, once each, threading the state and concatenating
the traces. -/
theorem app_invoke_eq (sys : RAGSystem) (s : GraphState) :
    app_invoke sys s =
      ((generate_node sys (retrieve_node sys (translate_node sys s).1).1).1,
       (translate_node sys s).2 ++
         ((retrieve_node sys (translate_node sys s).1).2 ++
           ((generate_node sys (retrieve_node sys (translate_node sys s).1).1).2 ++ [])),
       [NodeId.translate] ++ ([NodeId.retrieve] ++ ([NodeId.generate] ++ []))) := rfl

/-! ## Claims -/

/-- C1: for every input string, `query` returns a string and never raises:
the try-block body either returns normally (and `query` returns that
string), or raises an exception `e`, in which case `query` returns the
error string built from `e`. -/
theorem C1_query_never_raises (sys : RAGSystem) (fault : Option String)
    (question : String) :
    (queryTryBody sys fault question =
       Except.ok (RAGSystem.query sys fault question)) ∨
    (∃ e, queryTryBody sys fault question = Except.error e ∧
       RAGSystem.query sys fault question = "Error processing query: " ++ e) := by
  cases h : queryTryBody sys fault question with
  | ok s => exact Or.inl (by simp [RAGSystem.query, h])
  | error e => exact Or.inr ⟨e, rfl, by simp [RAGSystem.query, h]⟩

/-- C2: with no retriever loaded, `query` returns the fixed instruction
string for every input, runs no stage, and attempts no provider call. -/
theorem C2_no_retriever_short_circuit (sys : RAGSystem) (fault : Option String)
    (x : String) (h : sys.retriever = none) :
    queryFull sys fault x = (noVectorstoreMsg, [], []) ∧
    RAGSystem.query sys fault x = noVectorstoreMsg ∧
    noVectorstoreMsg =
      "Vector store not loaded. Please run `python process_documents.py` first." := by
  refine ⟨?_, ?_, rfl⟩
  · simp [queryFull, h]
  · simp [RAGSystem.query, queryTryBody, h]

theorem C2_witness :
    queryFull sysNoStore none "Ania?" = (noVectorstoreMsg, [], []) ∧
    RAGSystem.query sysNoStore none "Ania?" = noVectorstoreMsg ∧
    noVectorstoreMsg =
      "Vector store not loaded. Please run `python process_documents.py` first." :=
  C2_no_retriever_short_circuit sysNoStore none "Ania?" rfl

/-- C3: the detector returns true exactly when the lowercased input contains
at least one of the 18 marker tokens as a substring (no word boundaries). -/
theorem C3_detector_characterization :
    ilocano_indicators.length = 18 ∧
    ∀ q : String, is_ilocano q = true ↔
      ∃ ind ∈ ilocano_indicators, ind.data <:+: (py_lower q).data := by
  refine ⟨rfl, fun q => ?_⟩
  simp [is_ilocano, strContainsSub, List.any_eq_true]

/-- C4 counterexample: on the input `"What are citizen rights?"` the
detector returns true (the marker `"ti"` occurs inside `"citizen"`), and the
Translate stage attempts one Language Model Provider invocation, not
zero. -/
theorem C4_counterexample :
    is_ilocano "What are citizen rights?" = true ∧
    (translate_node sysEcho (initial_state "What are citizen rights?")).2.length = 1 := by
  exact ⟨by decide, rfl⟩

/-- C4 amended: on the input `"What are citizen rights?"` the detector
classifies the input as containing a marker token, so the Translate stage
performs exactly one Language Model Provider invocation; `translated_query`
is the trimmed response on success and equals the input unchanged only on
provider failure. -/
theorem C4_amended_translate_invokes (sys : RAGSystem) :
    is_ilocano "What are citizen rights?" = true ∧
    (translate_node sys (initial_state "What are citizen rights?")).2 =
      [ProviderCall.llm chatConfig
        (translation_prompt "What are citizen rights?" "English")] ∧
    (∀ t, sys.llm (translation_prompt "What are citizen rights?" "English") =
        Except.ok t →
      (translate_node sys (initial_state "What are citizen rights?")).1.translated_query =
        t.trim) ∧
    (∀ e, sys.llm (translation_prompt "What are citizen rights?" "English") =
        Except.error e →
      (translate_node sys (initial_state "What are citizen rights?")).1.translated_query =
        "What are citizen rights?") := by
  have hil : is_ilocano "What are citizen rights?" = true := by decide
  cases h : sys.llm (translation_prompt "What are citizen rights?" "English") with
  | ok t =>
      refine ⟨hil, ?_, ?_, ?_⟩
      · simp [translate_node, initial_state, hil, h]
      · intro t' ht'
        injection ht' with ht'
        subst ht'
        simp [translate_node, initial_state, hil, h]
      · intro e he
        simp at he
  | error e =>
      refine ⟨hil, ?_, ?_, ?_⟩
      · simp [translate_node, initial_state, hil, h]
      · intro t' ht'
        simp at ht'
      · intro e' he'
        injection he' with he'
        subst he'
        simp [translate_node, initial_state, hil, h]

theorem C4_amended_witness :
    (translate_node sysEcho (initial_state "What are citizen rights?")).1.translated_query =
      (translation_prompt "What are citizen rights?" "English").trim ∧
    (translate_node sysFail (initial_state "What are citizen rights?")).1.translated_query =
      "What are citizen rights?" :=
  ⟨(C4_amended_translate_invokes sysEcho).2.2.1 _ rfl,
   (C4_amended_translate_invokes sysFail).2.2.2 "boom" rfl⟩

/-- C5: stage-internal provider failures never abort the pipeline: on a
translate-call exception `translated_query` falls back to the original
query; on a retrieval exception `context` is the fixed placeholder and
`source_docs` is empty; and in every run the workflow still executes
translate, retrieve and generate, in that order. -/
theorem C5_stage_failures_are_nonfatal (sys : RAGSystem) (s : GraphState)
    (e : String) :
    (sys.llm (translation_prompt s.query "English") = Except.error e →
       (translate_node sys s).1.translated_query = s.query) ∧
    (∀ r, sys.retriever = some r → r s.translated_query = Except.error e →
       (retrieve_node sys s).1.context = "Error retrieving documents." ∧
       (retrieve_node sys s).1.source_docs = []) ∧
    (app_invoke sys s).2.2 = [NodeId.translate, NodeId.retrieve, NodeId.generate] := by
  refine ⟨?_, ?_, ?_⟩
  · intro h
    cases hil : is_ilocano s.query with
    | false => simp [translate_node, hil]
    | true => simp [translate_node, hil, h]
  · intro r hr hre
    simp [retrieve_node, hr, hre]
  · simp [app_invoke_eq]

theorem C5_witness :
    (translate_node sysFail (initial_state "ania")).1.translated_query = "ania" ∧
    (retrieve_node sysFail (initial_state "ania")).1.context =
      "Error retrieving documents." ∧
    (retrieve_node sysFail (initial_state "ania")).1.source_docs = [] ∧
    (app_invoke sysFail (initial_state "ania")).2.2 =
      [NodeId.translate, NodeId.retrieve, NodeId.generate] := by
  obtain ⟨h1, h2, h3⟩ :=
    C5_stage_failures_are_nonfatal sysFail (initial_state "ania") "boom"
  exact ⟨h1 rfl, (h2 _ rfl rfl).1, (h2 _ rfl rfl).2, h3⟩

/-- C6: on successful retrieval with an index loaded, the Retrieve stage
invokes the retriever on `translated_query`, takes the top 5 chunks in the
index's native similarity order, joins their texts with a blank line into
`context`, stores the same chunks in `source_docs` (hence at most 5), and
records exactly one retriever invocation. -/
theorem C6_retrieve_topk (sys : RAGSystem) (vs : VectorStore) (s : GraphState)
    (docs : List Document)
    (hvs : sys.vectorstore = some vs)
    (hok : vs.search s.translated_query = Except.ok docs) :
    (retrieve_node sys s).1.context =
      String.intercalate "\n\n" ((docs.take 5).map Document.page_content) ∧
    (retrieve_node sys s).1.source_docs = docs.take 5 ∧
    (retrieve_node sys s).1.source_docs.length ≤ 5 ∧
    (retrieve_node sys s).2 = [ProviderCall.retrieverInvoke s.translated_query] := by
  have hr : sys.retriever = some (vs.as_retriever 5) := by
    simp [RAGSystem.retriever, hvs]
  have hinv : vs.as_retriever 5 s.translated_query = Except.ok (docs.take 5) := by
    simp [VectorStore.as_retriever, hok, Except.map]
  have h2 : (retrieve_node sys s).1.source_docs = docs.take 5 := by
    simp [retrieve_node, hr, hinv]
  refine ⟨by simp [retrieve_node, hr, hinv], h2, ?_, by simp [retrieve_node, hr, hinv]⟩
  rw [h2, List.length_take]
  exact Nat.min_le_left _ _

theorem C6_witness :
    (retrieve_node sysMany (initial_state "q")).1.context =
      String.intercalate "\n\n" ((docList7.take 5).map Document.page_content) ∧
    (retrieve_node sysMany (initial_state "q")).1.source_docs = docList7.take 5 ∧
    (retrieve_node sysMany (initial_state "q")).1.source_docs.length ≤ 5 ∧
    (retrieve_node sysMany (initial_state "q")).2 =
      [ProviderCall.retrieverInvoke ""] :=
  C6_retrieve_topk sysMany _ (initial_state "q") docList7 rfl rfl

/-- C7: the Generate stage invokes the chat LLM exactly once, on the fixed
template instantiated with `context` and the original `query` (its answer is
invariant under `translated_query`), under the fixed decoding configuration
(temperature 0, top-p 9/10, 1000-token cap); on success `answer` is the
response verbatim, on provider error `answer` embeds the exception
message. -/
theorem C7_generate_contract (sys : RAGSystem) (s : GraphState) :
    (generate_node sys s).2 =
      [ProviderCall.llm chatConfig (rag_prompt s.context s.query)] ∧
    chatConfig.temperature = 0 ∧
    chatConfig.top_p = 9/10 ∧
    chatConfig.max_tokens = 1000 ∧
    (∀ x, (generate_node sys { s with translated_query := x }).1.answer =
       (generate_node sys s).1.answer) ∧
    (∀ t, sys.llm (rag_prompt s.context s.query) = Except.ok t →
       (generate_node sys s).1.answer = t) ∧
    (∀ e, sys.llm (rag_prompt s.context s.query) = Except.error e →
       (generate_node sys s).1.answer = "Error generating response: " ++ e) := by
  cases h : sys.llm (rag_prompt s.context s.query) with
  | ok t =>
      refine ⟨by simp [generate_node, h], rfl, rfl, rfl, ?_, ?_, ?_⟩
      · intro x
        simp [generate_node, h]
      · intro t' ht'
        injection ht' with ht'
        subst ht'
        simp [generate_node, h]
      · intro e he
        simp at he
  | error e =>
      refine ⟨by simp [generate_node, h], rfl, rfl, rfl, ?_, ?_, ?_⟩
      · intro x
        simp [generate_node, h]
      · intro t' ht'
        simp at ht'
      · intro e' he'
        injection he' with he'
        subst he'
        simp [generate_node, h]

theorem C7_witness :
    (generate_node sysEcho (initial_state "hi")).1.answer = rag_prompt "" "hi" ∧
    (generate_node sysFail (initial_state "hi")).1.answer =
      "Error generating response: boom" :=
  ⟨(C7_generate_contract sysEcho (initial_state "hi")).2.2.2.2.2.1 _ rfl,
   (C7_generate_contract sysFail (initial_state "hi")).2.2.2.2.2.2 "boom" rfl⟩

/-- C8: one run executes translate, retrieve, generate exactly once, in
stage order; each stage writes only the fields of its contract (Translate
only `translated_query`, Retrieve only `context` and `source_docs`, Generate
only `answer`), and `query` survives the whole run unmodified. -/
theorem C8_single_writer_frame (sys : RAGSystem) (s : GraphState) :
    (app_invoke sys s).2.2 = [NodeId.translate, NodeId.retrieve, NodeId.generate] ∧
    ((translate_node sys s).1.query = s.query ∧
     (translate_node sys s).1.context = s.context ∧
     (translate_node sys s).1.answer = s.answer ∧
     (translate_node sys s).1.source_docs = s.source_docs) ∧
    ((retrieve_node sys s).1.query = s.query ∧
     (retrieve_node sys s).1.translated_query = s.translated_query ∧
     (retrieve_node sys s).1.answer = s.answer) ∧
    ((generate_node sys s).1.query = s.query ∧
     (generate_node sys s).1.translated_query = s.translated_query ∧
     (generate_node sys s).1.context = s.context ∧
     (generate_node sys s).1.source_docs = s.source_docs) ∧
    (app_invoke sys s).1.query = s.query := by
  have htr : ∀ s' : GraphState,
      (translate_node sys s').1.query = s'.query ∧
      (translate_node sys s').1.context = s'.context ∧
      (translate_node sys s').1.answer = s'.answer ∧
      (translate_node sys s').1.source_docs = s'.source_docs := by
    intro s'
    cases hil : is_ilocano s'.query with
    | false => simp [translate_node, hil]
    | true =>
        cases h : sys.llm (translation_prompt s'.query "English") <;>
          simp [translate_node, hil, h]
  have hre : ∀ s' : GraphState,
      (retrieve_node sys s').1.query = s'.query ∧
      (retrieve_node sys s').1.translated_query = s'.translated_query ∧
      (retrieve_node sys s').1.answer = s'.answer := by
    intro s'
    cases hr : sys.retriever with
    | none => simp [retrieve_node, hr]
    | some r =>
        cases h : r s'.translated_query <;> simp [retrieve_node, hr, h]
  have hge : ∀ s' : GraphState,
      (generate_node sys s').1.query = s'.query ∧
      (generate_node sys s').1.translated_query = s'.translated_query ∧
      (generate_node sys s').1.context = s'.context ∧
      (generate_node sys s').1.source_docs = s'.source_docs := by
    intro s'
    cases h : sys.llm (rag_prompt s'.context s'.query) <;> simp [generate_node, h]
  refine ⟨by simp [app_invoke_eq], htr s, hre s, hge s, ?_⟩
  rw [app_invoke_eq]
  show (generate_node sys (retrieve_node sys (translate_node sys s).1).1).1.query = s.query
  rw [(hge _).1, (hre _).1, (htr _).1]

/-- C9: round trip through the stub environment — a one-chunk index with
text `T` and an echoing LLM: on `query("ania")` the Retrieve stage's
`context` equals `T` exactly, the returned answer is the generation prompt
built from `T` and `"ania"`, and that answer contains `T` as a substring. -/
theorem C9_round_trip (T : String) :
    (retrieve_node (stubSys T)
        (translate_node (stubSys T) (initial_state "ania")).1).1.context = T ∧
    RAGSystem.query (stubSys T) none "ania" = rag_prompt T "ania" ∧
    strContainsSub (RAGSystem.query (stubSys T) none "ania") T = true := by
  have hq : RAGSystem.query (stubSys T) none "ania" = rag_prompt T "ania" := rfl
  refine ⟨rfl, hq, ?_⟩
  rw [hq]
  apply decide_eq_true
  exact ⟨rag_prompt_head.data, (rag_prompt_mid ++ "ania" ++ rag_prompt_tail).data, by
    simp [rag_prompt, String.data_append]⟩

/-- C10: `query` returns only the `answer` field of the final request state
(the `source_docs` references are discarded), and the chat session appends
exactly the user message and an assistant message whose content is that
returned string alone. -/
theorem C10_answer_projection (sys : RAGSystem) (fault : Option String)
    (messages : List ChatMessage) (prompt : String) :
    (∀ r, sys.retriever = some r → fault = none →
       RAGSystem.query sys fault prompt =
         (app_invoke sys (initial_state prompt)).1.answer) ∧
    handle_user_turn sys fault messages prompt =
      messages ++ [{ role := "user", content := prompt },
                   { role := "assistant",
                     content := RAGSystem.query sys fault prompt }] := by
  constructor
  · intro r hr hf
    subst hf
    simp [RAGSystem.query, queryTryBody, hr]
  · simp [handle_user_turn]

theorem C10_witness :
    RAGSystem.query (stubSys "doc") none "hi" =
      (app_invoke (stubSys "doc") (initial_state "hi")).1.answer ∧
    handle_user_turn (stubSys "doc") none [] "hi" =
      [{ role := "user", content := "hi" },
       { role := "assistant", content := RAGSystem.query (stubSys "doc") none "hi" }] := by
  obtain ⟨h1, h2⟩ := C10_answer_projection (stubSys "doc") none [] "hi"
  exact ⟨h1 _ rfl rfl, by simpa using h2⟩
